import Mathlib

/-!
Verification of the auralearn ingestion core: a shallow embedding of the
three-level chunking pipeline for curriculum and teaching-guide documents
(`backend/assessment_pipeline/ingestion/{parser,metadata}.py` and
`backend/assessment_pipeline/teaching_guides/{parser,metadata}.py`),
together with theorems settling the frozen specification claims.

Strings are Lean `String`s, page numbers and token counts are `Nat`,
Python dictionaries threaded through the pipeline stages are explicit
record types, `try/except` blocks that return `None` become `Option`.
-/

namespace AuraLearn

/-! ### Basic string helpers (Python `str` semantics) -/

/-- Whitespace characters recognised by Python `str.split` / `str.strip`
and by the regex class `\s` (ASCII range, which is all the source uses). -/
def isSpacePy (c : Char) : Bool :=
  c == ' ' || c == '\t' || c == '\n' || c == '\x0d' || c == '\x0b' || c == '\x0c'

/-- Python `str.lower` restricted to the Latin-1 range: ASCII `A`-`Z` and
the accented capitals `À`-`Þ` (except `×`) shift down by 32, everything
else is unchanged.  This covers all French text the patterns can meet. -/
def pyLower (c : Char) : Char :=
  if 65 ≤ c.toNat ∧ c.toNat ≤ 90 then Char.ofNat (c.toNat + 32)
  else if 192 ≤ c.toNat ∧ c.toNat ≤ 222 ∧ c.toNat ≠ 215 then Char.ofNat (c.toNat + 32)
  else c

/-- Python `text.lower()` on a whole string. -/
def strLower (s : String) : String := String.mk (s.data.map pyLower)

/-- Drop leading and trailing characters satisfying `p` (Python `strip`). -/
def stripP (p : Char → Bool) (l : List Char) : List Char :=
  ((l.dropWhile p).reverse.dropWhile p).reverse

/-- Python `str.strip()` (no argument: strips whitespace). -/
def pyStrip (s : String) : String := String.mk (stripP isSpacePy s.data)

/-- Python `len(s.split())`: the number of maximal non-whitespace runs. -/
def wcAux : List Char → Bool → Nat
  | [], _ => 0
  | c :: rest, inWord =>
    if isSpacePy c then wcAux rest false
    else (if inWord then 0 else 1) + wcAux rest true

/-- Token count used by the chunkers: `len(sentence.split())`. -/
def wordCount (s : String) : Nat := wcAux s.data false

/-- Predicate `isPrefixCh n l` holds when `n` is a prefix of `l` (char-by-char). -/
def isPrefixCh (needle hay : List Char) : Bool :=
  match needle, hay with
  | [], _ => true
  | c :: cs, d :: ds => c == d && isPrefixCh cs ds
  | _ :: _, [] => false

/-- Substring test, Python `needle in hay`. -/
def containsSub : List Char → List Char → Bool
  | n, [] => isPrefixCh n []
  | n, c :: t => isPrefixCh n (c :: t) || containsSub n t

/-- Substring test on `String`s. -/
def strContains (needle hay : String) : Bool := containsSub needle.data hay.data

/-! ### Sentence splitting: `re.split(r'(?<=[.!?])\s+', text)`

A split point is a maximal whitespace run whose immediately preceding
character is `.`, `!` or `?`.  `splitSentAux` makes a single left-to-right
pass: `inSep = true` while consuming the (greedy) whitespace run, and the
accumulated current segment is kept reversed in `acc`. -/

def isStopPunct (c : Char) : Bool := c == '.' || c == '!' || c == '?'

/-- Is the most recently accumulated character a sentence-ending mark?
(`acc` holds the current segment reversed, so its head is the previous
character — the regex lookbehind `(?<=[.!?])`.) -/
def headPunct : List Char → Bool
  | [] => false
  | c :: _ => isStopPunct c

def splitSentAux : Bool → List Char → List Char → List String
  | _, acc, [] => [String.mk acc.reverse]
  | inSep, acc, c :: rest =>
    if inSep then
      if isSpacePy c then splitSentAux true [] rest
      else splitSentAux false [c] rest
    else
      if isSpacePy c && headPunct acc then
        String.mk acc.reverse :: splitSentAux true [] rest
      else splitSentAux false (c :: acc) rest

/-- Embeds `re.split(r'(?<=[.!?])\s+', text)` as used by both `_level_c_chunking`s. -/
def splitSentences (s : String) : List String := splitSentAux false [] s.data

/-! ### Level C packing

The greedy token-window loop shared verbatim by
`CurriculumChunker._level_c_chunking` and
`TeachingGuideChunker._level_c_chunking` (`target_min_tokens = 150`,
`target_max_tokens = 300`, absolute minimum 50 for the trailing buffer).
It returns the emitted `(chunk_text, token_count)` pairs in order. -/

def levelCAux : List String → String → Nat → List (String × Nat)
  | [], cur, tok =>
    if pyStrip cur ≠ "" ∧ 50 ≤ tok then [(pyStrip cur, tok)] else []
  | s :: rest, cur, tok =>
    let st := wordCount s
    if 300 < tok + st ∧ 150 ≤ tok then
      (pyStrip cur, tok) :: levelCAux rest s st
    else
      levelCAux rest (cur ++ " " ++ s) (tok + st)

/-- Level C packing of a Level-B section text into chunk windows. -/
def levelCPack (text : String) : List (String × Nat) :=
  levelCAux (splitSentences text) "" 0

/-! ### Boundary-pattern matching (the Pattern Catalog)

Each boundary regex in the source is a sequence of literal words joined by
whitespace classes, optionally ending in a digit class.  `Tok` embeds
exactly those constructs; `re.search(p, line, re.IGNORECASE)` becomes a
search of the lower-cased line for the lower-cased literal sequence.
The whitespace and digit classes never precede a token that could also
consume their characters, so greedy matching without backtracking is
exact (the optional class `Tok.opt` does backtrack). -/

inductive Tok where
  | lit (s : String)
  | ws0
  | ws1
  | cls (cs : List Char)
  | opt (cs : List Char)
  | digits1

/-- Match a token sequence at the start of `l`. -/
def matchToks : List Tok → List Char → Bool
  | [], _ => true
  | Tok.lit s :: ts, l => isPrefixCh s.data l && matchToks ts (l.drop s.length)
  | Tok.ws0 :: ts, l => matchToks ts (l.dropWhile isSpacePy)
  | Tok.ws1 :: ts, l =>
    match l with
    | [] => false
    | c :: rest => isSpacePy c && matchToks ts (rest.dropWhile isSpacePy)
  | Tok.cls cs :: ts, l =>
    match l with
    | [] => false
    | c :: rest => cs.contains c && matchToks ts rest
  | Tok.opt cs :: ts, l =>
    match l with
    | [] => matchToks ts []
    | c :: rest =>
      if cs.contains c then matchToks ts rest || matchToks ts (c :: rest)
      else matchToks ts (c :: rest)
  | Tok.digits1 :: ts, l =>
    match l with
    | [] => false
    | c :: rest => c.isDigit && matchToks ts (rest.dropWhile Char.isDigit)

/-- Embeds `re.search`: try the pattern at every start position. -/
def searchToks (p : List Tok) : List Char → Bool
  | [] => matchToks p []
  | c :: rest => matchToks p (c :: rest) || searchToks p rest

/-- ASCII apostrophe (39), built by code point to keep sources plain. -/
def apoC : Char := Char.ofNat 39

/-- Right single quotation mark U+2019, the second apostrophe variant in
the `d['’]` character classes of the source patterns. -/
def rsqC : Char := Char.ofNat 0x2019

/-- Embeds `CurriculumChunker.subject_patterns` (literals pre-lowered; matching
is done against the lower-cased line, which models `re.IGNORECASE`). -/
def subjectPatterns : List (List Tok) :=
  [ [Tok.lit "volet", Tok.ws0, Tok.cls ['1', '2', '3']],
    [Tok.lit "français"],
    [Tok.lit "mathématiques"],
    [Tok.lit "sciences", Tok.ws1, Tok.lit "et", Tok.ws1, Tok.lit "technologie"],
    [Tok.lit "histoire", Tok.ws1, Tok.lit "et", Tok.ws1, Tok.lit "géographie"],
    [Tok.lit "enseignement", Tok.ws1, Tok.lit "moral", Tok.ws1, Tok.lit "et",
      Tok.ws1, Tok.lit "civique"],
    [Tok.lit "éducation", Tok.ws1, Tok.lit "artistique"],
    [Tok.lit "langues", Tok.ws1, Tok.lit "vivantes"],
    [Tok.lit "éducation", Tok.ws1, Tok.lit "physique", Tok.ws1, Tok.lit "et",
      Tok.ws1, Tok.lit "sportive"] ]

/-- Embeds `CurriculumChunker.section_patterns`. -/
def sectionPatternsCurr : List (List Tok) :=
  [ [Tok.lit "objectifs", Tok.ws0, Tok.lit "/", Tok.ws0, Tok.lit "finalités"],
    [Tok.lit "compétences", Tok.ws1, Tok.lit "travaillées"],
    [Tok.lit "connaissances", Tok.ws1, Tok.lit "et", Tok.ws1, Tok.lit "compétences",
      Tok.ws1, Tok.lit "associées"],
    [Tok.lit "repères", Tok.ws1, Tok.lit "de", Tok.ws1, Tok.lit "progression"],
    [Tok.lit "situations", Tok.ws1, Tok.lit "d", Tok.opt [apoC, rsqC],
      Tok.lit "apprentissage"] ]

/-- Embeds `TeachingGuideChunker.chapter_patterns`. -/
def chapterPatterns : List (List Tok) :=
  [ [Tok.lit "chapitre", Tok.ws1, Tok.digits1],
    [Tok.lit "chapter", Tok.ws1, Tok.digits1],
    [Tok.lit "partie", Tok.ws1, Tok.digits1],
    [Tok.lit "section", Tok.ws1, Tok.digits1] ]

/-- Embeds `TeachingGuideChunker.section_patterns`. -/
def sectionPatternsGuide : List (List Tok) :=
  [ [Tok.lit "stratégies", Tok.ws1, Tok.lit "pédagogiques"],
    [Tok.lit "objectifs", Tok.ws1, Tok.lit "d", Tok.cls [apoC, rsqC],
      Tok.lit "apprentissage"],
    [Tok.lit "activités", Tok.ws1, Tok.lit "proposées"],
    [Tok.lit "évaluation"],
    [Tok.lit "ressources"],
    [Tok.lit "conseils", Tok.ws1, Tok.lit "pratiques"],
    [Tok.lit "différenciation"],
    [Tok.lit "progression"] ]

/-- The inner pattern loop of the boundary scans: a line is a boundary
when some pattern of the list matches it (case-insensitively). -/
def lineMatches (pats : List (List Tok)) (line : String) : Bool :=
  pats.any fun p => searchToks p (strLower line).data

/-! ### Pipeline records

One record type per pipeline stage; the Python code threads growing
dictionaries, each stage only adding keys, so each stage's record extends
the previous one. -/

/-- An OCR page, the `{page_number, text}` pairs consumed by the core. -/
structure Page where
  page_number : Nat
  text : String
deriving DecidableEq, Repr

/-- Level-A output of `CurriculumChunker` (keys set in `_level_a_chunking`). -/
structure SectionA where
  subject : String
  text : String
  pages : List Page
  doc_id : String
  line_start : Nat
  line_end : Nat
deriving DecidableEq, Repr

/-- Level-B output of `CurriculumChunker` (adds `section_type`, `topic`). -/
structure SectionB extends SectionA where
  section_type : String
  topic : String
deriving DecidableEq, Repr

/-- Level-C output of `CurriculumChunker` (adds `chunk_text`, `token_count`). -/
structure LeafC extends SectionB where
  chunk_text : String
  token_count : Nat
deriving DecidableEq, Repr

/-- Level-A output of `TeachingGuideChunker`. -/
structure GSectionA where
  topic : String
  text : String
  pages : List Page
  doc_id : String
  line_start : Nat
  line_end : Nat
deriving DecidableEq, Repr

/-- Level-B output of `TeachingGuideChunker` (adds `section_header`, `subtopic`). -/
structure GSectionB extends GSectionA where
  section_header : String
  subtopic : String
deriving DecidableEq, Repr

/-- Level-C output of `TeachingGuideChunker`. -/
structure GLeafC extends GSectionB where
  chunk_text : String
  token_count : Nat
deriving DecidableEq, Repr

/-! ### Levels A and B -/

/-- Embeds `_combine_pages_text`: newline-join of the page texts. -/
def combinePagesText (ps : List Page) : String :=
  String.intercalate "\n" (ps.map Page.text)

/-- Python `combined_text.split('\n')`: the segments between newline
characters (a structural one-pass version of `String.split`). -/
def splitNlAux : List Char → List Char → List String
  | [], acc => [String.mk acc.reverse]
  | c :: rest, acc =>
    if c == '\n' then String.mk acc.reverse :: splitNlAux rest []
    else splitNlAux rest (c :: acc)

def splitLines (s : String) : List String := splitNlAux s.data []

/-- The boundary scan both chunkers run at levels A and B: line index and
stripped line text of every line matching some pattern. -/
def boundariesOf (pats : List (List Tok)) (lines : List String) : List (Nat × String) :=
  lines.enum.filterMap fun p =>
    if lineMatches pats p.2 then some (p.1, pyStrip p.2) else none

/-- Turn the boundary list into `(start, label, end)` ranges: each section
runs to the next boundary, the last one to `total` (= number of lines). -/
def sectionRanges : List (Nat × String) → Nat → List (Nat × String × Nat)
  | [], _ => []
  | (i, name) :: rest, total =>
    (i, name, (match rest with | [] => total | (j, _) :: _ => j)) :: sectionRanges rest total

/-- Python `'\n'.join(lines[s:e])`. -/
def sliceLines (lines : List String) (s e : Nat) : String :=
  String.intercalate "\n" ((lines.drop s).take (e - s))

/-- Embeds `_get_pages_for_text_section` — both chunkers return the whole page
list, the documented line-to-page approximation. -/
def getPagesForTextSection (pages : List Page) (_startLine _endLine : Nat)
    (_allLines : List String) : List Page :=
  pages

/-- Embeds `CurriculumChunker._level_a_chunking`.  Note: unlike the teaching-guide
variant there is no fallback branch — zero boundaries yield zero sections. -/
def levelAC (pages : List Page) (doc_id : String) : List SectionA :=
  let lines := splitLines (combinePagesText pages)
  (sectionRanges (boundariesOf subjectPatterns lines) lines.length).map fun r =>
    { subject := r.2.1, text := sliceLines lines r.1 r.2.2,
      pages := getPagesForTextSection pages r.1 r.2.2 lines,
      doc_id := doc_id, line_start := r.1, line_end := r.2.2 }

/-- Embeds `CurriculumChunker._level_b_chunking`. -/
def levelBC (sub : SectionA) : List SectionB :=
  let lines := splitLines sub.text
  let bounds := boundariesOf sectionPatternsCurr lines
  if bounds = [] then
    [{ toSectionA := sub, section_type := "general", topic := sub.subject }]
  else
    (sectionRanges bounds lines.length).map fun r =>
      { toSectionA :=
          { sub with
              text := sliceLines lines r.1 r.2.2
              line_start := r.1
              line_end := r.2.2 },
        section_type := r.2.1, topic := r.2.1 }

/-- Embeds `CurriculumChunker._level_c_chunking` (the shared packing loop, with
the `**sub_data` spread carrying every Level-B field into each chunk). -/
def levelCC (sub : SectionB) : List LeafC :=
  (levelCPack sub.text).map fun p =>
    { toSectionB := sub, chunk_text := p.1, token_count := p.2 }

/-- Embeds `TeachingGuideChunker._level_a_chunking`, with its "no chapters found"
fallback producing the single whole-document `General` section. -/
def levelAG (pages : List Page) (doc_id : String) : List GSectionA :=
  let lines := splitLines (combinePagesText pages)
  let bounds := boundariesOf chapterPatterns lines
  if bounds = [] then
    [{ topic := "General", text := combinePagesText pages, pages := pages,
       doc_id := doc_id, line_start := 0, line_end := lines.length }]
  else
    (sectionRanges bounds lines.length).map fun r =>
      { topic := r.2.1, text := sliceLines lines r.1 r.2.2,
        pages := getPagesForTextSection pages r.1 r.2.2 lines,
        doc_id := doc_id, line_start := r.1, line_end := r.2.2 }

/-- Embeds `TeachingGuideChunker._level_b_chunking`. -/
def levelBG (ch : GSectionA) : List GSectionB :=
  let lines := splitLines ch.text
  let bounds := boundariesOf sectionPatternsGuide lines
  if bounds = [] then
    [{ toGSectionA := ch, section_header := "General", subtopic := ch.topic }]
  else
    (sectionRanges bounds lines.length).map fun r =>
      { toGSectionA :=
          { ch with
              text := sliceLines lines r.1 r.2.2
              line_start := r.1
              line_end := r.2.2 },
        section_header := r.2.1, subtopic := r.2.1 }

/-- Embeds `TeachingGuideChunker._level_c_chunking`. -/
def levelCG (sub : GSectionB) : List GLeafC :=
  (levelCPack sub.text).map fun p =>
    { toGSectionB := sub, chunk_text := p.1, token_count := p.2 }

/-! ### Per-leaf metadata extraction -/

/-- Python `str.upper` over the Latin-1 range (the arguments here are the
ASCII grade patterns, e.g. `'6e'.upper() = '6E'`). -/
def pyUpperChar (c : Char) : Char :=
  if 97 ≤ c.toNat ∧ c.toNat ≤ 122 then Char.ofNat (c.toNat - 32)
  else if 224 ≤ c.toNat ∧ c.toNat ≤ 254 ∧ c.toNat ≠ 247 then Char.ofNat (c.toNat - 32)
  else c

def strUpper (s : String) : String := String.mk (s.data.map pyUpperChar)

/-- Match `kw` then `\s*` then the class `[1234]` at the start of `l`,
returning the digit.  The whitespace run is greedy, which is exact here
because digits are not whitespace. -/
def matchCycleKw (kw : List Char) (l : List Char) : Option Char :=
  if isPrefixCh kw l then
    match (l.drop kw.length).dropWhile isSpacePy with
    | [] => none
    | d :: _ => if ['1', '2', '3', '4'].contains d then some d else none
  else none

/-- Embeds `re.search(kw + r'\s*[1234]', text)`: leftmost match, as an option on
the matched digit. -/
def searchCycleKw (kw : List Char) : List Char → Option Char
  | [] => matchCycleKw kw []
  | c :: rest =>
    match matchCycleKw kw (c :: rest) with
    | some d => some d
    | none => searchCycleKw kw rest

/-- The cycle loop of `CurriculumChunker._extract_metadata`: try
`r'Cycle\s*[1234]'` then `r'cycle\s*[1234]'` (both case-sensitive, on the
already lower-cased text) and keep the digit of the first match;
default `"3"`.  (`re.findall(r'\d+', match.group())[0]` is exactly the
matched class digit, since `cycle` and the whitespace hold no digits.) -/
def cycleFromText (low : String) : String :=
  match searchCycleKw "Cycle".data low.data with
  | some d => String.mk [d]
  | none =>
    match searchCycleKw "cycle".data low.data with
    | some d => String.mk [d]
    | none => "3"

/-- The `grade_patterns` of `CurriculumChunker._extract_metadata`. -/
def gradePatternsCurr : List String := ["CM1", "CM2", "6e", "5e", "4e", "3e"]

/-- Collect `pattern.upper()` for every grade pattern found
case-insensitively in the (lower-cased) text — note `'6e'.upper() = '6E'`. -/
def gradeScan (pats : List String) (low : String) : List String :=
  pats.filterMap fun p =>
    if strContains (strLower p) low then some (strUpper p) else none

/-- The metadata record returned by `CurriculumChunker._extract_metadata`. -/
structure MetaC where
  cycle : String
  grades : List String
  subject : String
  section_type : String
  topic : String
  subtopic : String
  is_cycle_wide : Bool
deriving DecidableEq, Repr

/-- Embeds `CurriculumChunker._extract_metadata`. -/
def extractMetadataC (cd : LeafC) : MetaC :=
  let low := strLower cd.chunk_text
  let cycle := cycleFromText low
  let subject := cd.subject
  let found := gradeScan gradePatternsCurr low
  let is_cycle_wide := found.isEmpty
  let grades :=
    if is_cycle_wide then
      if cycle = "3" then ["CM1", "CM2", "6e"]
      else if cycle = "2" then ["CE1", "CE2", "CM1", "CM2"]
      else []
    else found
  let topic := cd.topic
  { cycle := cycle, grades := grades, subject := subject,
    section_type := cd.section_type, topic := topic, subtopic := topic,
    is_cycle_wide := is_cycle_wide }

/-- The `grade_patterns` of `TeachingGuideChunker`. -/
def gradePatternsGuide : List String :=
  ["CM1", "CM2", "6e", "5e", "4e", "3e", "CE1", "CE2", "CP"]

/-- The `guide_type` cascade of `TeachingGuideChunker._extract_metadata`
(first-match-wins over the three keyword alternations, default
`"pedagogical"`). -/
def guideTypeOf (low : String) : String :=
  if strContains "stratégie" low || strContains "méthode" low
      || strContains "approche" low then "strategy"
  else if strContains "activité" low || strContains "exercice" low
      || strContains "pratique" low then "activity"
  else if strContains "évaluation" low || strContains "test" low
      || strContains "contrôle" low then "assessment"
  else "pedagogical"

/-- The metadata record returned by `TeachingGuideChunker._extract_metadata`. -/
structure MetaG where
  guide_type : String
  applicable_grades : List String
  topic : String
  subtopic : String
  section_header : String
  is_general : Bool
deriving DecidableEq, Repr

/-- Embeds `TeachingGuideChunker._extract_metadata`. -/
def extractMetadataG (cd : GLeafC) : MetaG :=
  let low := strLower cd.chunk_text
  let found := gradeScan gradePatternsGuide low
  let is_general := found.isEmpty
  { guide_type := guideTypeOf low,
    applicable_grades := if is_general then ["CM1", "CM2", "6e"] else found,
    topic := cd.topic, subtopic := cd.subtopic,
    section_header := cd.section_header, is_general := is_general }

/-! ### Chunk records and assembly -/

/-- Modelled from the spec: the Pydantic model `CurriculumChunk` lives in
`ingestion/schemas.py`, which is not among the provided sources.  Fields
follow spec §3 (curriculum variant) and the constructor call in
`CurriculumChunker._create_chunk`. -/
structure CurriculumChunk where
  cycle : String
  grades : List String
  subject : String
  section_type : String
  topic : String
  subtopic : String
  is_cycle_wide : Bool
  chunk_text : String
  page_start : Nat
  page_end : Nat
  source_paragraph_id : String
  doc_id : String
  lang : String
deriving DecidableEq, Repr

/-- Modelled from the spec: the Pydantic model `TeachingGuideChunk` lives
in `teaching_guides/schemas.py`, which is not among the provided sources.
Fields follow spec §3 (teaching-guide variant) and the constructor call in
`TeachingGuideChunker._create_chunk`; `applicable_categories` is the
set-valued field the enricher fills in later, so it defaults to empty. -/
structure TeachingGuideChunk where
  doc_id : String
  guide_type : String
  applicable_grades : List String
  topic : String
  subtopic : String
  section_header : String
  chunk_text : String
  page_start : Nat
  page_end : Nat
  is_general : Bool
  lang : String
  applicable_categories : List String := []
deriving DecidableEq, Repr

/-- Python `min(p['page_number'] for p in pages)` (meaningful only for a
non-empty list; the empty case raises, see `createChunkC`). -/
def pageMin : List Page → Nat
  | [] => 0
  | p :: t => t.foldl (fun a q => min a q.page_number) p.page_number

/-- Python `max(p['page_number'] for p in pages)`. -/
def pageMax : List Page → Nat
  | [] => 0
  | p :: t => t.foldl (fun a q => max a q.page_number) p.page_number

/-- Embeds `CurriculumChunker._create_chunk`.  The body runs in a `try` block
that logs any exception and returns `None`; in this typed embedding the
one reachable failure is `min()`/`max()` over an empty `pages` list, so
that case is the `none` branch. -/
def createChunkC (cd : LeafC) : Option CurriculumChunk :=
  match cd.pages with
  | [] => none
  | p :: ps =>
    let m := extractMetadataC cd
    some { cycle := m.cycle, grades := m.grades, subject := m.subject,
           section_type := m.section_type, topic := m.topic,
           subtopic := m.subtopic, is_cycle_wide := m.is_cycle_wide,
           chunk_text := cd.chunk_text,
           page_start := pageMin (p :: ps), page_end := pageMax (p :: ps),
           source_paragraph_id :=
             m.subject ++ "_" ++ m.topic ++ "_" ++ toString cd.line_start,
           doc_id := cd.doc_id, lang := "fr" }

/-- Embeds `TeachingGuideChunker._create_chunk` (same `try/except` shape). -/
def createChunkG (cd : GLeafC) : Option TeachingGuideChunk :=
  match cd.pages with
  | [] => none
  | p :: ps =>
    let m := extractMetadataG cd
    some { doc_id := cd.doc_id, guide_type := m.guide_type,
           applicable_grades := m.applicable_grades, topic := m.topic,
           subtopic := m.subtopic, section_header := m.section_header,
           chunk_text := cd.chunk_text,
           page_start := pageMin (p :: ps), page_end := pageMax (p :: ps),
           is_general := m.is_general, lang := "fr" }

/-- Embeds `CurriculumChunker.chunk_document`: the three nested loops, with the
`if chunk:` test skipping every leaf whose assembly returned `None`. -/
def chunkDocumentC (pages : List Page) (doc_id : String) : List CurriculumChunk :=
  (((levelAC pages doc_id).flatMap levelBC).flatMap levelCC).filterMap createChunkC

/-- Embeds `TeachingGuideChunker.chunk_document`. -/
def chunkDocumentG (pages : List Page) (doc_id : String) : List TeachingGuideChunk :=
  (((levelAG pages doc_id).flatMap levelBG).flatMap levelCG).filterMap createChunkG

/-! ### MD5 and the deterministic chunk ids

Both `MetadataBuilder.generate_unique_id`s are
`hashlib.md5(unique_string.encode()).hexdigest()[:16]`.  The full MD5 is
embedded over `Nat` with explicit `% 2^32` arithmetic (RFC 1321). -/

/-- 32-bit left rotation, for `x < 2^32`. -/
def rotl32 (x c : Nat) : Nat :=
  ((x % 4294967296) * 2 ^ c) % 4294967296 + (x % 4294967296) / 2 ^ (32 - c)

/-- The 64 MD5 sine-derived constants. -/
def md5K : List Nat :=
  [0xd76aa478, 0xe8c7b756, 0x242070db, 0xc1bdceee,
   0xf57c0faf, 0x4787c62a, 0xa8304613, 0xfd469501,
   0x698098d8, 0x8b44f7af, 0xffff5bb1, 0x895cd7be,
   0x6b901122, 0xfd987193, 0xa679438e, 0x49b40821,
   0xf61e2562, 0xc040b340, 0x265e5a51, 0xe9b6c7aa,
   0xd62f105d, 0x02441453, 0xd8a1e681, 0xe7d3fbc8,
   0x21e1cde6, 0xc33707d6, 0xf4d50d87, 0x455a14ed,
   0xa9e3e905, 0xfcefa3f8, 0x676f02d9, 0x8d2a4c8a,
   0xfffa3942, 0x8771f681, 0x6d9d6122, 0xfde5380c,
   0xa4beea44, 0x4bdecfa9, 0xf6bb4b60, 0xbebfbc70,
   0x289b7ec6, 0xeaa127fa, 0xd4ef3085, 0x04881d05,
   0xd9d4d039, 0xe6db99e5, 0x1fa27cf8, 0xc4ac5665,
   0xf4292244, 0x432aff97, 0xab9423a7, 0xfc93a039,
   0x655b59c3, 0x8f0ccc92, 0xffeff47d, 0x85845dd1,
   0x6fa87e4f, 0xfe2ce6e0, 0xa3014314, 0x4e0811a1,
   0xf7537e82, 0xbd3af235, 0x2ad7d2bb, 0xeb86d391]

/-- The 64 per-round shift amounts. -/
def md5S : List Nat :=
  [7, 12, 17, 22, 7, 12, 17, 22, 7, 12, 17, 22, 7, 12, 17, 22,
   5, 9, 14, 20, 5, 9, 14, 20, 5, 9, 14, 20, 5, 9, 14, 20,
   4, 11, 16, 23, 4, 11, 16, 23, 4, 11, 16, 23, 4, 11, 16, 23,
   6, 10, 15, 21, 6, 10, 15, 21, 6, 10, 15, 21, 6, 10, 15, 21]

/-- Round function (F, G, H, I by round quarter); operands stay `< 2^32`
so `^^^ 0xffffffff` is one's complement. -/
def md5F (i b c d : Nat) : Nat :=
  if i < 16 then (b &&& c) ||| ((b ^^^ 4294967295) &&& d)
  else if i < 32 then (d &&& b) ||| ((d ^^^ 4294967295) &&& c)
  else if i < 48 then b ^^^ c ^^^ d
  else c ^^^ (b ||| (d ^^^ 4294967295))

/-- Message-word index per round. -/
def md5G (i : Nat) : Nat :=
  if i < 16 then i
  else if i < 32 then (5 * i + 1) % 16
  else if i < 48 then (3 * i + 5) % 16
  else (7 * i) % 16

/-- Little-endian 32-bit word `g` of a 64-byte block. -/
def md5Word (block : List Nat) (g : Nat) : Nat :=
  block.getD (4 * g) 0 + 256 * block.getD (4 * g + 1) 0
    + 65536 * block.getD (4 * g + 2) 0 + 16777216 * block.getD (4 * g + 3) 0

/-- The 64 rounds over one block. -/
def md5Rounds (block : List Nat) (st : Nat × Nat × Nat × Nat) : Nat × Nat × Nat × Nat :=
  (List.range 64).foldl
    (fun st i =>
      let a := st.1
      let b := st.2.1
      let c := st.2.2.1
      let d := st.2.2.2
      let f := (a + md5F i b c d + md5K.getD i 0 + md5Word block (md5G i)) % 4294967296
      (d, (b + rotl32 f (md5S.getD i 0)) % 4294967296, b, c))
    st

/-- Process one 64-byte block: run the rounds and add into the state. -/
def md5Block (block : List Nat) (st : Nat × Nat × Nat × Nat) : Nat × Nat × Nat × Nat :=
  let r := md5Rounds block st
  ((st.1 + r.1) % 4294967296, (st.2.1 + r.2.1) % 4294967296,
   (st.2.2.1 + r.2.2.1) % 4294967296, (st.2.2.2 + r.2.2.2) % 4294967296)

/-- Fold over all blocks (`n` = number of 64-byte blocks). -/
def md5Blocks : Nat → List Nat → Nat × Nat × Nat × Nat → Nat × Nat × Nat × Nat
  | 0, _, st => st
  | n + 1, bytes, st => md5Blocks n (bytes.drop 64) (md5Block (bytes.take 64) st)

/-- MD5 padding: `0x80`, zeros to 56 mod 64, then the bit length as a
64-bit little-endian quantity. -/
def md5Pad (msg : List Nat) : List Nat :=
  let len := msg.length
  let z := (119 - len % 64) % 64
  let bits := (8 * len) % 2 ^ 64
  msg ++ [128] ++ List.replicate z 0
    ++ (List.range 8).map (fun i => bits / 2 ^ (8 * i) % 256)

/-- MD5 of a byte list, as the four final 32-bit registers. -/
def md5 (msg : List Nat) : Nat × Nat × Nat × Nat :=
  let p := md5Pad msg
  md5Blocks (p.length / 64) p (0x67452301, 0xefcdab89, 0x98badcfe, 0x10325476)

def hexChars : List Char := "0123456789abcdef".data

def hexDigit (n : Nat) : Char := hexChars.getD (n % 16) '0'

/-- One state word rendered as `hexdigest` does: bytes little-endian,
high nibble of each byte first — exactly eight hex characters. -/
def wordHexLE (w : Nat) : List Char :=
  [hexDigit (w % 256 / 16), hexDigit (w % 16),
   hexDigit (w / 256 % 256 / 16), hexDigit (w / 256 % 16),
   hexDigit (w / 65536 % 256 / 16), hexDigit (w / 65536 % 16),
   hexDigit (w / 16777216 % 256 / 16), hexDigit (w / 16777216 % 16)]

/-- Embeds `hashlib.md5(bytes).hexdigest()` as a 32-character list. -/
def md5HexChars (msg : List Nat) : List Char :=
  let st := md5 msg
  wordHexLE st.1 ++ wordHexLE st.2.1 ++ wordHexLE st.2.2.1 ++ wordHexLE st.2.2.2

/-- UTF-8 encoding of one character (Python `str.encode()`). -/
def utf8Bytes (c : Char) : List Nat :=
  let n := c.toNat
  if n < 128 then [n]
  else if n < 2048 then [192 + n / 64, 128 + n % 64]
  else if n < 65536 then [224 + n / 4096, 128 + n / 64 % 64, 128 + n % 64]
  else [240 + n / 262144, 128 + n / 4096 % 64, 128 + n / 64 % 64, 128 + n % 64]

/-- Python `s.encode()`: the UTF-8 byte sequence of a string. -/
def strBytes (s : String) : List Nat := s.data.flatMap utf8Bytes

/-- Embeds `hashlib.md5(s.encode()).hexdigest()[:16]`. -/
def md5Hex16 (s : String) : String := String.mk ((md5HexChars (strBytes s)).take 16)

/-- Embeds `MetadataBuilder.generate_unique_id` (curriculum variant): hash of
`f"{doc_id}_{subject}_{topic}_{page_start}_{source_paragraph_id}"`. -/
def generateUniqueIdC (c : CurriculumChunk) : String :=
  md5Hex16 (c.doc_id ++ "_" ++ c.subject ++ "_" ++ c.topic ++ "_"
    ++ toString c.page_start ++ "_" ++ c.source_paragraph_id)

/-- Embeds `MetadataBuilder.generate_unique_id` (teaching-guide variant): hash of
`f"{doc_id}_{guide_type}_{topic}_{page_start}"` — no per-window component. -/
def generateUniqueIdG (c : TeachingGuideChunk) : String :=
  md5Hex16 (c.doc_id ++ "_" ++ c.guide_type ++ "_" ++ c.topic ++ "_"
    ++ toString c.page_start)

/-! ### Curriculum `MetadataBuilder`: enrichment and validation -/

/-- The ASCII apostrophe as a one-character string, for the source's
`'situations d\'apprentissage'` mapping key. -/
def apoS : String := String.mk [apoC]

/-- Embeds `MetadataBuilder.grade_mappings`, in dict insertion order. -/
def gradeMappings : List (String × String) :=
  [("cp", "CP"), ("ce1", "CE1"), ("ce2", "CE2"), ("cm1", "CM1"), ("cm2", "CM2"),
   ("6e", "6e"), ("5e", "5e"), ("4e", "4e"), ("3e", "3e")]

/-- Embeds `MetadataBuilder.subject_mappings`, in dict insertion order. -/
def subjectMappings : List (String × String) :=
  [("français", "Français"), ("francais", "Français"),
   ("mathématiques", "Mathématiques"), ("mathematiques", "Mathématiques"),
   ("sciences et technologie", "Sciences et technologie"),
   ("histoire et géographie", "Histoire et géographie"),
   ("enseignement moral et civique", "Enseignement moral et civique"),
   ("éducation artistique", "Éducation artistique"),
   ("langues vivantes", "Langues vivantes"),
   ("éducation physique et sportive", "Éducation physique et sportive")]

/-- Embeds `MetadataBuilder.section_type_mappings`, in dict insertion order. -/
def sectionTypeMappings : List (String × String) :=
  [("objectifs", "objectives"), ("finalités", "objectives"),
   ("compétences", "competencies"), ("connaissances", "knowledge"),
   ("repères de progression", "progression"),
   ("situations d" ++ apoS ++ "apprentissage", "learning_situations"),
   ("volet", "subject_area")]

/-- Is `c` an ASCII capital (the regex class `[A-Z]`)? -/
def isUpperAZ (c : Char) : Bool := 65 ≤ c.toNat && c.toNat ≤ 90

/-- A character on which the topic classes `[^.!?\n]` stop. -/
def isTopicStop (c : Char) : Bool := c == '.' || c == '!' || c == '?'

/-- The matches of `r'^([A-Z][^.!?\n]*?)(?=\n|$)'` with `re.MULTILINE`:
a line matches exactly when it starts with an ASCII capital and holds no
sentence punctuation, and then the (lazy-plus-lookahead) group is the
whole line. -/
def topicMatchesP1 (text : String) : List String :=
  (splitLines text).filter fun l =>
    match l.data with
    | [] => false
    | c :: rest => isUpperAZ c && (rest.all fun ch => ¬ isTopicStop ch)

/-- The lazy body of `r'[A-Z][^.!?\n]*?:'`: consume up to the first `:`
(kept in the group), failing on any `[.!?\n]` met earlier.  Returns the
group tail and the remaining input after the match. -/
def lazyToColon : List Char → List Char → Option (List Char × List Char)
  | [], _ => none
  | c :: rest, acc =>
    if c == ':' then some ((c :: acc).reverse, rest)
    else if c == '.' || c == '!' || c == '?' || c == '\n' then none
    else lazyToColon rest (c :: acc)

/-- Embeds `re.findall(r'([A-Z][^.!?\n]*?:)', text)`: non-overlapping left-to-
right matches.  The fuel argument starts at the text length, which always
suffices because each step consumes at least one character. -/
def p2ScanF : Nat → List Char → List String
  | 0, _ => []
  | _ + 1, [] => []
  | fuel + 1, c :: rest =>
    if isUpperAZ c then
      match lazyToColon rest [] with
      | some (grp, rest2) => String.mk (c :: grp) :: p2ScanF fuel rest2
      | none => p2ScanF fuel rest
    else p2ScanF fuel rest

def topicMatchesP2 (text : String) : List String :=
  p2ScanF text.data.length text.data

/-- The inner candidate loop: first match whose cleaned form
(`strip().strip(':')`) has length strictly between 10 and 100. -/
def topicQualify (ms : List String) : Option String :=
  ms.findSome? fun m =>
    let clean := String.mk (stripP (· == ':') (stripP isSpacePy m.data))
    if 10 < clean.length ∧ clean.length < 100 then some clean else none

/-- The topic-heading scan of `MetadataBuilder._extract_from_text`: try
the line pattern, then the colon pattern. -/
def topicFromText (text : String) : Option String :=
  match topicQualify (topicMatchesP1 text) with
  | some t => some t
  | none => topicQualify (topicMatchesP2 text)

/-- The record `MetadataBuilder._extract_from_text` returns: a key absent
from the Python dict (or present but falsy, which for these string/list
values is the same test) is `none`; `is_cycle_wide` is always set. -/
structure TextMeta where
  cycle : Option String
  grades : Option (List String)
  subject : Option String
  section_type : Option String
  topic : Option String
  is_cycle_wide : Bool
deriving DecidableEq, Repr

/-- Embeds `MetadataBuilder._extract_from_text`. -/
def extractFromText (text : String) : TextMeta :=
  let low := strLower text
  let found := gradeMappings.filterMap fun p =>
    if strContains p.1 low then some p.2 else none
  { cycle := (searchCycleKw "cycle".data low.data).map fun d => String.mk [d],
    grades := if found = [] then none else some found,
    subject := subjectMappings.findSome? fun p =>
      if strContains p.1 low then some p.2 else none,
    section_type := sectionTypeMappings.findSome? fun p =>
      if strContains p.1 low then some p.2 else none,
    topic := topicFromText text,
    is_cycle_wide := strContains "tout le cycle" low
      || strContains "cycle entier" low || strContains "tous niveaux" low }

/-- Embeds `MetadataBuilder.enrich_chunk_metadata` (curriculum variant).
Python's `list(set(grades + found))` has unspecified order; it is modelled
as order-preserving deduplication of the concatenation, which has the same
membership.  `subtopic` is never produced by `_extract_from_text`, so it
is unchanged. -/
def enrichChunkMetadataC (chunk : CurriculumChunk) : CurriculumChunk :=
  let add := extractFromText chunk.chunk_text
  let grades :=
    match add.grades with
    | some found => (chunk.grades ++ found).dedup
    | none => chunk.grades
  { chunk with
      grades := grades
      cycle := add.cycle.getD chunk.cycle
      subject := add.subject.getD chunk.subject
      section_type := add.section_type.getD chunk.section_type
      topic := add.topic.getD chunk.topic
      is_cycle_wide := grades.isEmpty || add.is_cycle_wide }

/-- Python `not value.strip()` for a string field. -/
def isBlank (s : String) : Bool := pyStrip s = ""

/-- Embeds `MetadataBuilder.validate_chunk` (curriculum variant), as the source's
early-return cascade.  The required-fields loop also visits `page_start`
and `page_end`, but being integers they can fail neither the `None` nor
the empty-string test, so only the string fields appear.  Note there is no
`chunk_text`-length rule in this variant. -/
def validateChunkC (c : CurriculumChunk) : Bool :=
  if isBlank c.cycle then false
  else if isBlank c.subject then false
  else if isBlank c.section_type then false
  else if isBlank c.topic then false
  else if isBlank c.subtopic then false
  else if isBlank c.chunk_text then false
  else if isBlank c.source_paragraph_id then false
  else if ¬ c.is_cycle_wide ∧ c.grades = [] then false
  else if c.page_end < c.page_start then false
  else true

/-! ### Teaching-guide `MetadataBuilder`: categories and validation -/

/-- Embeds `MetadataBuilder.category_patterns`: each keyword-group regex as its
list of literal keywords, in dict insertion order. -/
def categoryPatterns : List (String × List String) :=
  [("visual_learner",
    ["visual", "diagram", "chart", "image", "picture", "graphic", "color",
     "illustration", "map", "video"]),
   ("slow_processing",
    ["slow", "extra time", "extended time", "pace", "step-by-step", "gradual",
     "patient", "wait"]),
   ("fast_processor",
    ["fast", "quick", "advanced", "challenge", "extension", "accelerat",
     "enrich", "complex"]),
   ("needs_repetition",
    ["repetition", "repeat", "practice", "review", "reinforce", "drill",
     "multiple times", "again"]),
   ("high_energy",
    ["movement", "active", "physical", "kinesthetic", "hands-on",
     "manipulative", "break", "activity"]),
   ("easily_distracted",
    ["focus", "attention", "distract", "quiet", "minimize", "structure",
     "routine", "clear"]),
   ("sensitive_low_confidence",
    ["confidence", "encourage", "support", "praise", "positive", "gentle",
     "reassure", "safe"]),
   ("logical_learner",
    ["logic", "pattern", "sequence", "reason", "problem-solving", "analyz",
     "systematic", "order"])]

/-- The category loop of `MetadataBuilder.detect_categories`: every
category whose keyword alternation matches the lower-cased text, in
pattern order. -/
def catHits (text : String) : List String :=
  categoryPatterns.filterMap fun p =>
    if p.2.any (fun k => strContains k (strLower text)) then some p.1 else none

/-- Embeds `MetadataBuilder.detect_categories`, with its `['general']` fallback
when no category matched. -/
def detectCategories (text : String) : List String :=
  if catHits text = [] then ["general"] else catHits text

/-- Embeds `MetadataBuilder.enrich_chunk_metadata` (teaching-guide variant):
fill `applicable_categories` from the text when it is still empty. -/
def enrichChunkMetadataG (chunk : TeachingGuideChunk) : TeachingGuideChunk :=
  if chunk.applicable_categories = [] then
    { chunk with applicable_categories := detectCategories chunk.chunk_text }
  else chunk

/-- Embeds `MetadataBuilder.validate_chunk` (teaching-guide variant): same
cascade as the curriculum one plus the final `chunk_text`-length rule. -/
def validateChunkG (c : TeachingGuideChunk) : Bool :=
  if isBlank c.doc_id then false
  else if isBlank c.guide_type then false
  else if isBlank c.topic then false
  else if isBlank c.subtopic then false
  else if isBlank c.section_header then false
  else if isBlank c.chunk_text then false
  else if ¬ c.is_general ∧ c.applicable_grades = [] then false
  else if c.page_end < c.page_start then false
  else if (pyStrip c.chunk_text).length < 50 then false
  else true

/-! ### Concrete fixtures and marker predicates used by the claim theorems -/

def c4CurrA : CurriculumChunk :=
  { cycle := "3", grades := ["CM1"], subject := "Maths", section_type := "general",
    topic := "Nombres", subtopic := "Nombres", is_cycle_wide := false,
    chunk_text := "premier texte", page_start := 2, page_end := 4,
    source_paragraph_id := "Maths_Nombres_0", doc_id := "doc1", lang := "fr" }

def c4CurrB : CurriculumChunk :=
  { c4CurrA with chunk_text := "autre texte, autre fenêtre", page_end := 9 }

def c4GuideA : TeachingGuideChunk :=
  { doc_id := "doc2", guide_type := "strategy", applicable_grades := ["CM1"],
    topic := "Lecture", subtopic := "s1", section_header := "h1",
    chunk_text := "premier texte", page_start := 1, page_end := 3,
    is_general := false, lang := "fr" }

def c4GuideB : TeachingGuideChunk :=
  { c4GuideA with chunk_text := "texte différent", subtopic := "s2" }

def c10GuideA : TeachingGuideChunk :=
  { doc_id := "docX", guide_type := "activity", applicable_grades := ["CM2"],
    topic := "Géométrie", subtopic := "fenêtre 1", section_header := "Activités proposées",
    chunk_text := "première fenêtre de texte issue de la section",
    page_start := 5, page_end := 8, is_general := false, lang := "fr" }

def c10GuideB : TeachingGuideChunk :=
  { c10GuideA with
      subtopic := "fenêtre 2"
      chunk_text := "seconde fenêtre, texte entièrement différent" }

def c8Good : LeafC :=
  { subject := "Français", text := "t", pages := [⟨1, "p"⟩], doc_id := "d",
    line_start := 0, line_end := 1, section_type := "general",
    topic := "Français", chunk_text := "du texte", token_count := 2 }

def c8Bad : LeafC := { c8Good with pages := [] }

def c9Pages : List Page := [⟨4, "Volet 1"⟩, ⟨2, "texte"⟩, ⟨7, "fin"⟩]

def c3Guide : TeachingGuideChunk :=
  { doc_id := "d", guide_type := "strategy", applicable_grades := ["CM1"],
    topic := "Lecture", subtopic := "s", section_header := "h",
    chunk_text := "Texte de quarante caracteres exactement.",
    page_start := 1, page_end := 2, is_general := false, lang := "fr",
    applicable_categories := ["general"] }

def c3Curr : CurriculumChunk :=
  { cycle := "3", grades := ["CM1"], subject := "Maths",
    section_type := "general", topic := "Nombres", subtopic := "Nombres",
    is_cycle_wide := false,
    chunk_text := "Texte de quarante caracteres exactement.",
    page_start := 1, page_end := 2, source_paragraph_id := "Maths_Nombres_0",
    doc_id := "d", lang := "fr" }

def c2Pages : List Page := [⟨1, "bonjour"⟩, ⟨2, "le monde"⟩]

/-- Predicate `cycleMarkerAt kw d l`: the pattern `kw` + `\s*` + the specific digit
`d` matches at the start of `l`. -/
def cycleMarkerAt (kw : List Char) (d : Char) (l : List Char) : Bool :=
  isPrefixCh kw l &&
    (match (l.drop kw.length).dropWhile isSpacePy with
     | [] => false
     | c :: _ => c == d)

/-- Predicate `cycleMarker kw d l`: some position of `l` carries the marker
`kw`-whitespace-`d`. -/
def cycleMarker (kw : List Char) (d : Char) : List Char → Bool
  | [] => cycleMarkerAt kw d []
  | c :: rest => cycleMarkerAt kw d (c :: rest) || cycleMarker kw d rest

def c7Witness : LeafC :=
  { subject := "Maths", text := "t", pages := [⟨1, "x"⟩], doc_id := "d",
    line_start := 0, line_end := 1, section_type := "general", topic := "Maths",
    chunk_text := "Les CM1 et les CM2 du cycle 3 au travail.", token_count := 9 }

def c7Cex : LeafC :=
  { subject := "Maths", text := "t", pages := [⟨1, "x"⟩], doc_id := "d",
    line_start := 0, line_end := 1, section_type := "general", topic := "Maths",
    chunk_text := "Cycle 1 puis Cycle 3 : CM1, CM2 et 6e.", token_count := 9 }

/-- A 150-word single sentence, for the C1 witness. -/
def c1WText : String := String.intercalate " " (List.replicate 150 "mot") ++ "."

def c1WSub : SectionB :=
  { subject := "Maths", text := c1WText, pages := [⟨1, "x"⟩], doc_id := "d",
    line_start := 0, line_end := 1, section_type := "general", topic := "Maths" }

def c1WGsub : GSectionB :=
  { topic := "Lecture", text := c1WText, pages := [⟨1, "x"⟩], doc_id := "d",
    line_start := 0, line_end := 1, section_header := "General", subtopic := "Lecture" }

/-- A 301-word sentence followed by a 60-word sentence: the first flush
happens only after the buffer has overshot the 300-token maximum. -/
def c1CexText : String :=
  String.intercalate " " (List.replicate 301 "mot") ++ ". "
    ++ String.intercalate " " (List.replicate 60 "mot") ++ "."

def c1CexSub : SectionB :=
  { subject := "Maths", text := c1CexText, pages := [⟨1, "x"⟩], doc_id := "d",
    line_start := 0, line_end := 1, section_type := "general", topic := "Maths" }

/-! ## Helper lemmas -/

/-- Applying `Char.ofNat` to a code point below the surrogate range round-trips. -/
lemma char_toNat_ofNat (n : Nat) (h : n < 0xd800) : (Char.ofNat n).toNat = n := by
  rw [Char.ofNat]
  rw [dif_pos (Or.inl h)]
  simp [Char.ofNatAux, Char.toNat, UInt32.ofNat', UInt32.toNat]

/-- A list, tested empty, is either empty (making the flag true) or not. -/
lemma isEmpty_or_ne_nil (l : List String) (b : Bool) :
    (l.isEmpty || b) = true ∨ l ≠ [] := by
  by_cases h : l = []
  · left
    simp [h]
  · right
    exact h

lemma wordHexLE_length (w : Nat) : (wordHexLE w).length = 8 := rfl

lemma md5HexChars_length (msg : List Nat) : (md5HexChars msg).length = 32 := by
  unfold md5HexChars
  simp [wordHexLE_length]

lemma md5Hex16_length (s : String) : (md5Hex16 s).length = 16 := by
  unfold md5Hex16
  show ((md5HexChars (strBytes s)).take 16).length = 16
  rw [List.length_take, md5HexChars_length]
  omega

lemma hexDigit_mem (n : Nat) : hexDigit n ∈ hexChars := by
  unfold hexDigit
  have h : n % 16 < 16 := Nat.mod_lt _ (by norm_num)
  set k := n % 16 with hk
  interval_cases k <;> decide

lemma wordHexLE_subset (w : Nat) : ∀ ch ∈ wordHexLE w, ch ∈ hexChars := by
  intro ch h
  unfold wordHexLE at h
  simp only [List.mem_cons, List.not_mem_nil, or_false] at h
  rcases h with h | h | h | h | h | h | h | h <;> (subst h; exact hexDigit_mem _)

lemma md5Hex16_chars (s : String) : ∀ ch ∈ (md5Hex16 s).data, ch ∈ hexChars := by
  intro ch hch
  have h1 : ch ∈ (md5HexChars (strBytes s)).take 16 := hch
  have h2 := List.mem_of_mem_take h1
  unfold md5HexChars at h2
  rcases List.mem_append.mp h2 with h | h
  · rcases List.mem_append.mp h with h | h
    · rcases List.mem_append.mp h with h | h
      · exact wordHexLE_subset _ _ h
      · exact wordHexLE_subset _ _ h
    · exact wordHexLE_subset _ _ h
  · exact wordHexLE_subset _ _ h

/-- Every category in `catHits` comes from a matching pattern, and
conversely. -/
lemma mem_catHits (text cat : String) :
    cat ∈ catHits text ↔
      ∃ kws, (cat, kws) ∈ categoryPatterns ∧
        kws.any (fun k => strContains k (strLower text)) = true := by
  unfold catHits
  rw [List.mem_filterMap]
  constructor
  · rintro ⟨⟨c, kws⟩, hmem, hf⟩
    dsimp only at hf
    by_cases hm : (kws.any fun k => strContains k (strLower text)) = true
    · rw [if_pos hm] at hf
      exact ⟨kws, (Option.some.inj hf) ▸ hmem, hm⟩
    · rw [if_neg hm] at hf
      exact absurd hf (by simp)
  · rintro ⟨kws, hmem, hm⟩
    refine ⟨(cat, kws), hmem, ?_⟩
    dsimp only
    rw [if_pos hm]

lemma catHits_eq_nil_iff (text : String) :
    catHits text = [] ↔
      ∀ p ∈ categoryPatterns, p.2.any (fun k => strContains k (strLower text)) = false := by
  unfold catHits
  rw [List.filterMap_eq_nil_iff]
  constructor
  · intro h p hp
    have := h p hp
    by_cases hm : p.2.any (fun k => strContains k (strLower text)) = true
    · simp [hm] at this
    · simpa [Bool.not_eq_true] using hm
  · intro h p hp
    simp [h p hp]

/-- Function `detect_categories` never returns the empty list. -/
lemma detectCategories_ne_nil (t : String) : detectCategories t ≠ [] := by
  unfold detectCategories
  split_ifs with h
  · simp
  · exact h

/-! ## Claim theorems -/

/-- C4: `generate_unique_id` is a deterministic function of the chunk's
identifying fields — equal `(doc_id, subject, topic, page_start,
source_paragraph_id)` for curriculum chunks, equal `(doc_id, guide_type,
topic, page_start)` for teaching-guide chunks — and the id it returns is
a 16-character string of lowercase hex digits. -/
theorem generate_unique_id_deterministic
    (c1 c2 : CurriculumChunk) (g1 g2 : TeachingGuideChunk)
    (hc1 : c1.doc_id = c2.doc_id) (hc2 : c1.subject = c2.subject)
    (hc3 : c1.topic = c2.topic) (hc4 : c1.page_start = c2.page_start)
    (hc5 : c1.source_paragraph_id = c2.source_paragraph_id)
    (hg1 : g1.doc_id = g2.doc_id) (hg2 : g1.guide_type = g2.guide_type)
    (hg3 : g1.topic = g2.topic) (hg4 : g1.page_start = g2.page_start) :
    generateUniqueIdC c1 = generateUniqueIdC c2 ∧
    generateUniqueIdG g1 = generateUniqueIdG g2 ∧
    (generateUniqueIdC c1).length = 16 ∧ (generateUniqueIdG g1).length = 16 ∧
    (∀ ch ∈ (generateUniqueIdC c1).data, ch ∈ hexChars) ∧
    (∀ ch ∈ (generateUniqueIdG g1).data, ch ∈ hexChars) := by
  refine ⟨?_, ?_, md5Hex16_length _, md5Hex16_length _, md5Hex16_chars _, md5Hex16_chars _⟩
  · unfold generateUniqueIdC
    rw [hc1, hc2, hc3, hc4, hc5]
  · unfold generateUniqueIdG
    rw [hg1, hg2, hg3, hg4]

/-- C4 witness: the determinism theorem applied at two concrete chunk
pairs that agree on their identifying fields but differ elsewhere. -/
theorem generate_unique_id_deterministic_witness :
    generateUniqueIdC c4CurrA = generateUniqueIdC c4CurrB ∧
    generateUniqueIdG c4GuideA = generateUniqueIdG c4GuideB ∧
    (generateUniqueIdC c4CurrA).length = 16 ∧ (generateUniqueIdG c4GuideA).length = 16 ∧
    (∀ ch ∈ (generateUniqueIdC c4CurrA).data, ch ∈ hexChars) ∧
    (∀ ch ∈ (generateUniqueIdG c4GuideA).data, ch ∈ hexChars) :=
  generate_unique_id_deterministic c4CurrA c4CurrB c4GuideA c4GuideB
    rfl rfl rfl rfl rfl rfl rfl rfl rfl

/-- C5: for every curriculum chunk metadata record — as produced by
`_extract_metadata` and as left by `enrich_chunk_metadata` — either the
cycle-wide flag is set or the grade list is non-empty; the two are never
simultaneously false and empty. -/
theorem curriculum_grades_or_cycle_wide_invariant :
    (∀ cd : LeafC,
      (extractMetadataC cd).is_cycle_wide = true ∨ (extractMetadataC cd).grades ≠ []) ∧
    (∀ c : CurriculumChunk,
      (enrichChunkMetadataC c).is_cycle_wide = true ∨ (enrichChunkMetadataC c).grades ≠ []) := by
  constructor
  · intro cd
    by_cases h : gradeScan gradePatternsCurr (strLower cd.chunk_text) = []
    · left
      simp [extractMetadataC, h]
    · right
      simp [extractMetadataC, h]
  · intro c
    unfold enrichChunkMetadataC
    cases hadd : (extractFromText c.chunk_text).grades with
    | none =>
      simp only [hadd]
      exact isEmpty_or_ne_nil _ _
    | some found =>
      simp only [hadd]
      exact isEmpty_or_ne_nil _ _

/-- C6: `detect_categories` returns exactly the categories whose keyword
pattern matches (multi-label, all simultaneous matches retained), is never
empty, falls back to the single sentinel `general` when nothing matches,
and therefore every enriched teaching-guide chunk carries a non-empty
`applicable_categories`. -/
theorem detect_categories_union_nonempty
    (text cat : String) (g : TeachingGuideChunk) :
    detectCategories text ≠ [] ∧
    (cat ∈ detectCategories text ↔
      ((∃ kws, (cat, kws) ∈ categoryPatterns ∧
          kws.any (fun k => strContains k (strLower text)) = true) ∨
        (cat = "general" ∧
          ∀ p ∈ categoryPatterns,
            p.2.any (fun k => strContains k (strLower text)) = false))) ∧
    (enrichChunkMetadataG g).applicable_categories ≠ [] := by
  refine ⟨detectCategories_ne_nil text, ?_, ?_⟩
  · unfold detectCategories
    split_ifs with h
    · have hall := (catHits_eq_nil_iff text).mp h
      constructor
      · intro hmem
        right
        refine ⟨?_, hall⟩
        simpa using hmem
      · rintro (⟨kws, hkmem, hkany⟩ | ⟨hcat, _⟩)
        · exact absurd (hall (cat, kws) hkmem) (by simp [hkany])
        · simp [hcat]
    · rw [mem_catHits]
      constructor
      · exact Or.inl
      · rintro (hm | ⟨_, hall⟩)
        · exact hm
        · exact absurd ((catHits_eq_nil_iff text).mpr hall) h
  · unfold enrichChunkMetadataG
    split_ifs with h
    · simp only
      exact detectCategories_ne_nil _
    · exact h

/-- C10: the teaching-guide `generate_unique_id` reads only `(doc_id,
guide_type, topic, page_start)`, so two chunks agreeing on those four
fields — for instance two different text windows packed from the same
section — receive the identical id. -/
theorem guide_unique_id_ignores_window
    (g1 g2 : TeachingGuideChunk)
    (h1 : g1.doc_id = g2.doc_id) (h2 : g1.guide_type = g2.guide_type)
    (h3 : g1.topic = g2.topic) (h4 : g1.page_start = g2.page_start) :
    generateUniqueIdG g1 = generateUniqueIdG g2 := by
  unfold generateUniqueIdG
  rw [h1, h2, h3, h4]

/-- C10 witness: two concrete chunks from the same section with different
packed windows get the same id. -/
theorem guide_unique_id_ignores_window_witness :
    generateUniqueIdG c10GuideA = generateUniqueIdG c10GuideB :=
  guide_unique_id_ignores_window c10GuideA c10GuideB rfl rfl rfl rfl

/-- C8: a leaf whose `pages` list is empty makes `min()`/`max()` fail
inside `_create_chunk`, which returns `None` instead of propagating, and
the `if chunk:` filter of `chunk_document` drops exactly that leaf while
every other leaf's chunk is kept. -/
theorem create_chunk_failure_skipped
    (cd bad : LeafC) (l1 l2 : List LeafC)
    (h1 : cd.pages = []) (h2 : createChunkC bad = none) :
    createChunkC cd = none ∧
    (l1 ++ bad :: l2).filterMap createChunkC = (l1 ++ l2).filterMap createChunkC := by
  constructor
  · unfold createChunkC
    rw [h1]
  · simp [List.filterMap_append, List.filterMap_cons, h2]

/-- C8 witness: a concrete empty-pages leaf is rejected and skipped while
its neighbours survive. -/
theorem create_chunk_failure_skipped_witness :
    createChunkC c8Bad = none ∧
    ([c8Good] ++ c8Bad :: [c8Good]).filterMap createChunkC =
      ([c8Good] ++ [c8Good]).filterMap createChunkC :=
  create_chunk_failure_skipped c8Bad c8Bad [c8Good] [c8Good] rfl rfl

/-! Page-field preservation through the three levels, for claim C9. -/

lemma mem_levelAC_pages (pages : List Page) (doc_id : String) :
    ∀ s ∈ levelAC pages doc_id, s.pages = pages := by
  intro s hs
  unfold levelAC at hs
  simp only [List.mem_map] at hs
  obtain ⟨r, _, rfl⟩ := hs
  rfl

lemma mem_levelBC_pages (sub : SectionA) :
    ∀ s ∈ levelBC sub, s.pages = sub.pages := by
  intro s hs
  unfold levelBC at hs
  dsimp only at hs
  split at hs
  · simp only [List.mem_singleton] at hs
    subst hs
    rfl
  · simp only [List.mem_map] at hs
    obtain ⟨r, _, rfl⟩ := hs
    rfl

lemma mem_levelCC_pages (sub : SectionB) :
    ∀ cd ∈ levelCC sub, cd.pages = sub.pages := by
  intro cd hcd
  unfold levelCC at hcd
  simp only [List.mem_map] at hcd
  obtain ⟨r, _, rfl⟩ := hcd
  rfl

lemma mem_levelAG_pages (pages : List Page) (doc_id : String) :
    ∀ s ∈ levelAG pages doc_id, s.pages = pages := by
  intro s hs
  unfold levelAG at hs
  dsimp only at hs
  split at hs
  · simp only [List.mem_singleton] at hs
    subst hs
    rfl
  · simp only [List.mem_map] at hs
    obtain ⟨r, _, rfl⟩ := hs
    rfl

lemma mem_levelBG_pages (ch : GSectionA) :
    ∀ s ∈ levelBG ch, s.pages = ch.pages := by
  intro s hs
  unfold levelBG at hs
  dsimp only at hs
  split at hs
  · simp only [List.mem_singleton] at hs
    subst hs
    rfl
  · simp only [List.mem_map] at hs
    obtain ⟨r, _, rfl⟩ := hs
    rfl

lemma mem_levelCG_pages (sub : GSectionB) :
    ∀ cd ∈ levelCG sub, cd.pages = sub.pages := by
  intro cd hcd
  unfold levelCG at hcd
  simp only [List.mem_map] at hcd
  obtain ⟨r, _, rfl⟩ := hcd
  rfl

lemma foldl_min_le_foldl_max (t : List Page) : ∀ a b : Nat, a ≤ b →
    t.foldl (fun x q => min x q.page_number) a
      ≤ t.foldl (fun x q => max x q.page_number) b := by
  induction t with
  | nil => intro a b h; exact h
  | cons q t ih =>
    intro a b h
    exact ih _ _ (le_trans (min_le_left _ _) (le_trans h (le_max_left _ _)))

lemma pageMin_le_pageMax (ps : List Page) : pageMin ps ≤ pageMax ps := by
  cases ps with
  | nil => exact le_refl 0
  | cons p t => exact foldl_min_le_foldl_max t _ _ (le_refl _)

lemma createChunkC_span (cd : LeafC) (c : CurriculumChunk)
    (h : createChunkC cd = some c) :
    c.page_start = pageMin cd.pages ∧ c.page_end = pageMax cd.pages ∧
      c.page_start ≤ c.page_end := by
  unfold createChunkC at h
  cases hp : cd.pages with
  | nil =>
    rw [hp] at h
    exact absurd h (by simp)
  | cons p ps =>
    rw [hp] at h
    obtain rfl := Option.some.inj h
    exact ⟨rfl, rfl, pageMin_le_pageMax (p :: ps)⟩

lemma createChunkG_span (cd : GLeafC) (c : TeachingGuideChunk)
    (h : createChunkG cd = some c) :
    c.page_start = pageMin cd.pages ∧ c.page_end = pageMax cd.pages ∧
      c.page_start ≤ c.page_end := by
  unfold createChunkG at h
  cases hp : cd.pages with
  | nil =>
    rw [hp] at h
    exact absurd h (by simp)
  | cons p ps =>
    rw [hp] at h
    obtain rfl := Option.some.inj h
    exact ⟨rfl, rfl, pageMin_le_pageMax (p :: ps)⟩

/-- C9: every chunk either chunker produces from a non-empty page list
spans the whole document — `page_start` is the minimum page number over
all pages and `page_end` the maximum (a consequence of
`_get_pages_for_text_section` returning the full page list) — so all
chunks of a document carry the same span and `page_start ≤ page_end`. -/
theorem chunk_page_span_document_wide (pages : List Page) (doc_id : String)
    (hne : pages ≠ []) :
    (∀ c ∈ chunkDocumentC pages doc_id,
      c.page_start = pageMin pages ∧ c.page_end = pageMax pages ∧
        c.page_start ≤ c.page_end) ∧
    (∀ g ∈ chunkDocumentG pages doc_id,
      g.page_start = pageMin pages ∧ g.page_end = pageMax pages ∧
        g.page_start ≤ g.page_end) := by
  constructor
  · intro c hc
    unfold chunkDocumentC at hc
    rw [List.mem_filterMap] at hc
    obtain ⟨cd, hcd, hsome⟩ := hc
    rw [List.mem_flatMap] at hcd
    obtain ⟨sb, hsb, hcdsb⟩ := hcd
    rw [List.mem_flatMap] at hsb
    obtain ⟨sa, hsa, hsbsa⟩ := hsb
    have hpg : cd.pages = pages := by
      rw [mem_levelCC_pages sb cd hcdsb, mem_levelBC_pages sa sb hsbsa,
        mem_levelAC_pages pages doc_id sa hsa]
    have hspan := createChunkC_span cd c hsome
    rw [hpg] at hspan
    exact hspan
  · intro g hg
    unfold chunkDocumentG at hg
    rw [List.mem_filterMap] at hg
    obtain ⟨cd, hcd, hsome⟩ := hg
    rw [List.mem_flatMap] at hcd
    obtain ⟨sb, hsb, hcdsb⟩ := hcd
    rw [List.mem_flatMap] at hsb
    obtain ⟨sa, hsa, hsbsa⟩ := hsb
    have hpg : cd.pages = pages := by
      rw [mem_levelCG_pages sb cd hcdsb, mem_levelBG_pages sa sb hsbsa,
        mem_levelAG_pages pages doc_id sa hsa]
    have hspan := createChunkG_span cd g hsome
    rw [hpg] at hspan
    exact hspan

/-- C9 witness: the span theorem applied to a concrete non-empty page
list. -/
theorem chunk_page_span_document_wide_witness :
    c9Pages ≠ [] ∧
    ((∀ c ∈ chunkDocumentC c9Pages "d",
      c.page_start = pageMin c9Pages ∧ c.page_end = pageMax c9Pages ∧
        c.page_start ≤ c.page_end) ∧
    (∀ g ∈ chunkDocumentG c9Pages "d",
      g.page_start = pageMin c9Pages ∧ g.page_end = pageMax c9Pages ∧
        g.page_start ≤ g.page_end)) :=
  ⟨by decide, chunk_page_span_document_wide c9Pages "d" (by decide)⟩

/-- C3 (amended): the teaching-guide `validate_chunk` rejects every chunk
whose trimmed text is shorter than 50 characters; the curriculum
`validate_chunk` has no such length rule (see the counterexample). -/
theorem validate_short_text_guide_rejects
    (g : TeachingGuideChunk) (h : (pyStrip g.chunk_text).length < 50) :
    validateChunkG g = false := by
  unfold validateChunkG
  split_ifs <;> first | rfl | omega

/-- C3 witness: a concrete 40-character teaching-guide chunk is rejected. -/
theorem validate_short_text_guide_rejects_witness :
    (pyStrip c3Guide.chunk_text).length < 50 ∧ validateChunkG c3Guide = false :=
  ⟨by decide, validate_short_text_guide_rejects c3Guide (by decide)⟩

/-- C3 counterexample: a concrete curriculum chunk whose trimmed text has
only 40 characters is nonetheless accepted by the curriculum
`validate_chunk` — the claim's "returns reject" fails for that variant. -/
theorem validate_short_text_curriculum_accepts_cex :
    (pyStrip c3Curr.chunk_text).length = 40 ∧ 40 < 50 ∧
      validateChunkC c3Curr = true := by
  refine ⟨by decide, by norm_num, by decide⟩

/-! Boundary-free Level A, for claim C2. -/

lemma boundariesOf_eq_nil_of_no_match (pats : List (List Tok)) (lines : List String)
    (h : ∀ l ∈ lines, lineMatches pats l = false) :
    boundariesOf pats lines = [] := by
  unfold boundariesOf
  rw [List.filterMap_eq_nil_iff]
  rintro ⟨i, l⟩ hmem
  have hl : l ∈ lines := List.snd_mem_of_mem_enum hmem
  simp [h l hl]

/-- C2 (amended): with zero Level-A boundary matches, the teaching-guide
chunker returns the single whole-document section labeled `General`, but
the curriculum chunker — whose `_level_a_chunking` has no fallback branch
— returns the empty section list, dropping the document. -/
theorem levelA_no_boundary_behaviour (pages : List Page) (doc_id : String)
    (hg : ∀ l ∈ splitLines (combinePagesText pages),
      lineMatches chapterPatterns l = false)
    (hc : ∀ l ∈ splitLines (combinePagesText pages),
      lineMatches subjectPatterns l = false) :
    levelAG pages doc_id =
      [{ topic := "General", text := combinePagesText pages, pages := pages,
         doc_id := doc_id, line_start := 0,
         line_end := (splitLines (combinePagesText pages)).length }] ∧
    levelAC pages doc_id = [] := by
  have hbg := boundariesOf_eq_nil_of_no_match chapterPatterns _ hg
  have hbc := boundariesOf_eq_nil_of_no_match subjectPatterns _ hc
  constructor
  · unfold levelAG
    dsimp only
    rw [hbg, if_pos rfl]
  · unfold levelAC
    dsimp only
    rw [hbc]
    rfl

/-- C2 witness: the amended theorem at a concrete two-page document none
of whose lines matches any boundary pattern. -/
theorem levelA_no_boundary_behaviour_witness :
    levelAG c2Pages "doc" =
      [{ topic := "General", text := combinePagesText c2Pages, pages := c2Pages,
         doc_id := "doc", line_start := 0,
         line_end := (splitLines (combinePagesText c2Pages)).length }] ∧
    levelAC c2Pages "doc" = [] :=
  levelA_no_boundary_behaviour c2Pages "doc" (by decide) (by decide)

/-- C2 counterexample: on a document whose lines match zero curriculum
subject patterns, `CurriculumChunker._level_a_chunking` returns the empty
list — not exactly one `General` section as the claim states. -/
theorem levelA_curriculum_no_general_cex :
    (splitLines (combinePagesText c2Pages)).all
        (fun l => !lineMatches subjectPatterns l) = true ∧
    levelAC c2Pages "doc" = [] ∧ (levelAC c2Pages "doc").length ≠ 1 := by
  refine ⟨by decide, by decide, by decide⟩

/-! The cycle-marker characterisation, for claim C7. -/

lemma matchCycleKw_some (kw l : List Char) (d : Char)
    (h : matchCycleKw kw l = some d) :
    ['1', '2', '3', '4'].contains d = true ∧ cycleMarkerAt kw d l = true := by
  unfold matchCycleKw at h
  unfold cycleMarkerAt
  split_ifs at h with hpre
  · cases hdrop : (l.drop kw.length).dropWhile isSpacePy with
    | nil => rw [hdrop] at h; exact absurd h (by simp)
    | cons c rest =>
      rw [hdrop] at h
      dsimp only at h
      split_ifs at h with hc
      obtain rfl := Option.some.inj h
      refine ⟨hc, ?_⟩
      rw [hpre]
      simp

lemma matchCycleKw_isSome_of_markerAt (kw l : List Char) (d : Char)
    (hd : ['1', '2', '3', '4'].contains d = true)
    (h : cycleMarkerAt kw d l = true) :
    (matchCycleKw kw l).isSome = true := by
  unfold cycleMarkerAt at h
  unfold matchCycleKw
  rw [Bool.and_eq_true] at h
  obtain ⟨hpre, hmatch⟩ := h
  rw [if_pos hpre]
  cases hdrop : (l.drop kw.length).dropWhile isSpacePy with
  | nil => rw [hdrop] at hmatch; exact absurd hmatch (by simp)
  | cons c rest =>
    rw [hdrop] at hmatch
    dsimp only at hmatch ⊢
    have hcd : c = d := by simpa using hmatch
    rw [hcd, if_pos hd]
    rfl

lemma searchCycleKw_some_marker (kw : List Char) :
    ∀ (l : List Char) (d : Char), searchCycleKw kw l = some d →
      ['1', '2', '3', '4'].contains d = true ∧ cycleMarker kw d l = true := by
  intro l
  induction l with
  | nil =>
    intro d h
    have := matchCycleKw_some kw [] d h
    exact ⟨this.1, by unfold cycleMarker; exact this.2⟩
  | cons c rest ih =>
    intro d h
    unfold searchCycleKw at h
    cases hm : matchCycleKw kw (c :: rest) with
    | some e =>
      rw [hm] at h
      have hed := Option.some.inj h
      have hm2 : matchCycleKw kw (c :: rest) = some d := hed ▸ hm
      have := matchCycleKw_some kw (c :: rest) d hm2
      exact ⟨this.1, by unfold cycleMarker; rw [this.2]; rfl⟩
    | none =>
      rw [hm] at h
      have := ih d h
      refine ⟨this.1, ?_⟩
      unfold cycleMarker
      rw [this.2]
      simp

lemma searchCycleKw_isSome_of_marker (kw : List Char) :
    ∀ (l : List Char) (d : Char), ['1', '2', '3', '4'].contains d = true →
      cycleMarker kw d l = true → (searchCycleKw kw l).isSome = true := by
  intro l
  induction l with
  | nil =>
    intro d hd h
    unfold cycleMarker at h
    unfold searchCycleKw
    exact matchCycleKw_isSome_of_markerAt kw [] d hd h
  | cons c rest ih =>
    intro d hd h
    unfold cycleMarker at h
    unfold searchCycleKw
    rw [Bool.or_eq_true] at h
    rcases h with hat | hrest
    · have := matchCycleKw_isSome_of_markerAt kw (c :: rest) d hd hat
      cases hm : matchCycleKw kw (c :: rest) with
      | some e => rfl
      | none => rw [hm] at this; exact absurd this (by simp)
    · cases hm : matchCycleKw kw (c :: rest) with
      | some e => rfl
      | none => exact ih d hd hrest

lemma pyLower_ne_C (a : Char) : pyLower a ≠ 'C' := by
  unfold pyLower
  split_ifs with h1 h2 <;> intro heq
  · have h67 := congrArg Char.toNat heq
    rw [char_toNat_ofNat _ (by omega)] at h67
    have : ('C' : Char).toNat = 67 := rfl
    omega
  · have h67 := congrArg Char.toNat heq
    rw [char_toNat_ofNat _ (by omega)] at h67
    have : ('C' : Char).toNat = 67 := rfl
    omega
  · subst heq
    exact h1 (by decide)

lemma strLower_no_C (s : String) : ∀ c ∈ (strLower s).data, c ≠ 'C' := by
  intro c hc
  unfold strLower at hc
  rw [List.mem_map] at hc
  obtain ⟨a, _, rfl⟩ := hc
  exact pyLower_ne_C a

lemma searchCycleKw_cap_none :
    ∀ l : List Char, (∀ c ∈ l, c ≠ 'C') → searchCycleKw "Cycle".data l = none := by
  intro l
  induction l with
  | nil => intro _; rfl
  | cons c rest ih =>
    intro h
    unfold searchCycleKw
    have hm : matchCycleKw "Cycle".data (c :: rest) = none := by
      unfold matchCycleKw
      rw [if_neg]
      have hc : ('C' == c) = false := by
        have := h c (List.mem_cons_self c rest)
        simp [Ne.symm this]
      show ¬(isPrefixCh ('C' :: "ycle".data) (c :: rest) = true)
      unfold isPrefixCh
      rw [hc]
      simp
    rw [hm]
    exact ih fun x hx => h x (List.mem_cons_of_mem c hx)

lemma cycleFromText_eq_three (low : String)
    (h3 : cycleMarker "cycle".data '3' low.data = true)
    (h1 : cycleMarker "cycle".data '1' low.data = false)
    (h2 : cycleMarker "cycle".data '2' low.data = false)
    (h4 : cycleMarker "cycle".data '4' low.data = false)
    (hnoC : ∀ c ∈ low.data, c ≠ 'C') :
    cycleFromText low = "3" := by
  unfold cycleFromText
  rw [searchCycleKw_cap_none low.data hnoC]
  have hsome := searchCycleKw_isSome_of_marker "cycle".data low.data '3' (by decide) h3
  cases hfind : searchCycleKw "cycle".data low.data with
  | none => simp [hfind] at hsome
  | some d =>
    obtain ⟨hdig, hmark⟩ := searchCycleKw_some_marker "cycle".data low.data d hfind
    have hd3 : d = '3' := by
      have : d = '1' ∨ d = '2' ∨ d = '3' ∨ d = '4' := by
        simpa using hdig
      rcases this with rfl | rfl | rfl | rfl
      · exact absurd (hmark.symm.trans h1) (by decide)
      · exact absurd (hmark.symm.trans h2) (by decide)
      · rfl
      · exact absurd (hmark.symm.trans h4) (by decide)
    subst hd3
    rfl

/-- C7 (amended): for a chunk whose lower-cased text contains `cm1` and
`cm2`, carries a cycle-3 marker and no cycle marker with any other digit,
and matches no other grade token (`6e`/`5e`/`4e`/`3e`), `_extract_metadata`
yields `grades = [CM1, CM2]`, `cycle = "3"` and `is_cycle_wide = false`. -/
theorem extract_metadata_cm1_cm2_cycle3 (cd : LeafC)
    (hcm1 : strContains "cm1" (strLower cd.chunk_text) = true)
    (hcm2 : strContains "cm2" (strLower cd.chunk_text) = true)
    (hm3 : cycleMarker "cycle".data '3' (strLower cd.chunk_text).data = true)
    (hm1 : cycleMarker "cycle".data '1' (strLower cd.chunk_text).data = false)
    (hm2 : cycleMarker "cycle".data '2' (strLower cd.chunk_text).data = false)
    (hm4 : cycleMarker "cycle".data '4' (strLower cd.chunk_text).data = false)
    (h6e : strContains "6e" (strLower cd.chunk_text) = false)
    (h5e : strContains "5e" (strLower cd.chunk_text) = false)
    (h4e : strContains "4e" (strLower cd.chunk_text) = false)
    (h3e : strContains "3e" (strLower cd.chunk_text) = false) :
    (extractMetadataC cd).grades = ["CM1", "CM2"] ∧
    (extractMetadataC cd).cycle = "3" ∧
    (extractMetadataC cd).is_cycle_wide = false := by
  have e1 : strContains (strLower "CM1") (strLower cd.chunk_text) = true := hcm1
  have e2 : strContains (strLower "CM2") (strLower cd.chunk_text) = true := hcm2
  have e3 : strContains (strLower "6e") (strLower cd.chunk_text) = false := h6e
  have e4 : strContains (strLower "5e") (strLower cd.chunk_text) = false := h5e
  have e5 : strContains (strLower "4e") (strLower cd.chunk_text) = false := h4e
  have e6 : strContains (strLower "3e") (strLower cd.chunk_text) = false := h3e
  have hg : gradeScan gradePatternsCurr (strLower cd.chunk_text) = ["CM1", "CM2"] := by
    unfold gradeScan gradePatternsCurr
    simp only [List.filterMap_cons, List.filterMap_nil, e1, e2, e3, e4, e5, e6,
      if_true, if_false, Bool.false_eq_true]
    rfl
  have hcyc : cycleFromText (strLower cd.chunk_text) = "3" :=
    cycleFromText_eq_three _ hm3 hm1 hm2 hm4 (strLower_no_C _)
  refine ⟨?_, ?_, ?_⟩
  · show (if (gradeScan gradePatternsCurr (strLower cd.chunk_text)).isEmpty
        then _ else gradeScan gradePatternsCurr (strLower cd.chunk_text)) = _
    rw [hg]
    rfl
  · exact hcyc
  · show (gradeScan gradePatternsCurr (strLower cd.chunk_text)).isEmpty = false
    rw [hg]
    rfl

/-- C7 witness: the amended extraction theorem at a concrete chunk whose
text mentions CM1, CM2 and a Cycle 3 marker and nothing conflicting. -/
theorem extract_metadata_cm1_cm2_cycle3_witness :
    strContains "cm1" (strLower c7Witness.chunk_text) = true ∧
    strContains "cm2" (strLower c7Witness.chunk_text) = true ∧
    cycleMarker "cycle".data '3' (strLower c7Witness.chunk_text).data = true ∧
    ((extractMetadataC c7Witness).grades = ["CM1", "CM2"] ∧
      (extractMetadataC c7Witness).cycle = "3" ∧
      (extractMetadataC c7Witness).is_cycle_wide = false) :=
  ⟨by decide, by decide, by decide,
    extract_metadata_cm1_cm2_cycle3 c7Witness (by decide) (by decide) (by decide)
      (by decide) (by decide) (by decide) (by decide) (by decide) (by decide)
      (by decide)⟩

/-- C7 counterexample: this chunk's text contains the phrases `CM1` and
`CM2` and a `Cycle 3` marker, yet extraction returns `grades =
[CM1, CM2, 6E]` (the extra `6e` token is collected too) and `cycle = "1"`
(the leftmost marker wins), refuting the claim as stated. -/
theorem extract_metadata_cm1_cm2_cycle3_cex :
    strContains "CM1" c7Cex.chunk_text = true ∧
    strContains "CM2" c7Cex.chunk_text = true ∧
    strContains "Cycle 3" c7Cex.chunk_text = true ∧
    (extractMetadataC c7Cex).grades = ["CM1", "CM2", "6E"] ∧
    (extractMetadataC c7Cex).cycle = "1" ∧
    ¬((extractMetadataC c7Cex).grades = ["CM1", "CM2"] ∧
      (extractMetadataC c7Cex).cycle = "3") := by
  refine ⟨by decide, by decide, by decide, by decide, by decide, by decide⟩

/-! Packing-loop bounds, for claim C1. -/

/-- Every chunk the Level-C loop emits has at least 50 tokens, and every
chunk except possibly the last has at least 150: a chunk is flushed in the
loop only when the buffer already reached the 150-token minimum, and the
trailing buffer is emitted only at 50 tokens or more. -/
lemma levelCAux_min_bounds : ∀ (ss : List String) (cur : String) (tok : Nat),
    (∀ p ∈ (levelCAux ss cur tok).dropLast, 150 ≤ p.2) ∧
    (∀ p ∈ levelCAux ss cur tok, 50 ≤ p.2) := by
  intro ss
  induction ss with
  | nil =>
    intro cur tok
    constructor
    · intro p hp
      unfold levelCAux at hp
      split_ifs at hp with h
      · simp at hp
      · simp at hp
    · intro p hp
      unfold levelCAux at hp
      split_ifs at hp with h
      · rw [List.mem_singleton] at hp
        rw [hp]
        exact h.2
      · simp at hp
  | cons s rest ih =>
    intro cur tok
    unfold levelCAux
    dsimp only
    split_ifs with h
    · constructor
      · intro p hp
        cases hL : levelCAux rest s (wordCount s) with
        | nil =>
          rw [hL] at hp
          simp at hp
        | cons q qs =>
          rw [hL] at hp
          rw [List.dropLast_cons_of_ne_nil (List.cons_ne_nil q qs)] at hp
          rcases List.mem_cons.mp hp with heq | hp2
          · rw [heq]
            exact h.2
          · have hrec := (ih s (wordCount s)).1 p
            rw [hL] at hrec
            exact hrec hp2
      · intro p hp
        rcases List.mem_cons.mp hp with heq | hp2
        · rw [heq]
          exact le_trans (by norm_num) h.2
        · exact (ih s (wordCount s)).2 p hp2
    · exact ih (cur ++ " " ++ s) (tok + wordCount s)

/-- C1 (amended): for a Level-B section of at least the minimum window,
every chunk `_level_c_chunking` emits except possibly the last has a
`token_count` of at least the 150-token minimum — the 300-token maximum
can be exceeded when one sentence unit overshoots it (see the
counterexample) — and every emitted chunk, the final one included, has at
least the absolute minimum of 50 tokens (smaller trailing buffers are
dropped).  Stated for both the curriculum and teaching-guide chunkers. -/
theorem levelC_token_window_corrected (sub : SectionB) (gsub : GSectionB)
    (hs : 150 ≤ wordCount sub.text) (hg : 150 ≤ wordCount gsub.text) :
    (∀ cd ∈ (levelCC sub).dropLast, 150 ≤ cd.token_count) ∧
    (∀ cd ∈ levelCC sub, 50 ≤ cd.token_count) ∧
    (∀ cd ∈ (levelCG gsub).dropLast, 150 ≤ cd.token_count) ∧
    (∀ cd ∈ levelCG gsub, 50 ≤ cd.token_count) := by
  refine ⟨?_, ?_, ?_, ?_⟩
  · intro cd hcd
    unfold levelCC at hcd
    rw [← List.map_dropLast] at hcd
    rw [List.mem_map] at hcd
    obtain ⟨p, hp, rfl⟩ := hcd
    exact (levelCAux_min_bounds (splitSentences sub.text) "" 0).1 p hp
  · intro cd hcd
    unfold levelCC at hcd
    rw [List.mem_map] at hcd
    obtain ⟨p, hp, rfl⟩ := hcd
    exact (levelCAux_min_bounds (splitSentences sub.text) "" 0).2 p hp
  · intro cd hcd
    unfold levelCG at hcd
    rw [← List.map_dropLast] at hcd
    rw [List.mem_map] at hcd
    obtain ⟨p, hp, rfl⟩ := hcd
    exact (levelCAux_min_bounds (splitSentences gsub.text) "" 0).1 p hp
  · intro cd hcd
    unfold levelCG at hcd
    rw [List.mem_map] at hcd
    obtain ⟨p, hp, rfl⟩ := hcd
    exact (levelCAux_min_bounds (splitSentences gsub.text) "" 0).2 p hp

set_option maxRecDepth 1000000 in
/-- C1 witness: the amended packing bounds at concrete 150-token Level-B
sections of both chunkers. -/
theorem levelC_token_window_corrected_witness :
    (150 ≤ wordCount c1WSub.text ∧ 150 ≤ wordCount c1WGsub.text) ∧
    ((∀ cd ∈ (levelCC c1WSub).dropLast, 150 ≤ cd.token_count) ∧
      (∀ cd ∈ levelCC c1WSub, 50 ≤ cd.token_count) ∧
      (∀ cd ∈ (levelCG c1WGsub).dropLast, 150 ≤ cd.token_count) ∧
      (∀ cd ∈ levelCG c1WGsub, 50 ≤ cd.token_count)) :=
  ⟨⟨by decide, by decide⟩,
    levelC_token_window_corrected c1WSub c1WGsub (by decide) (by decide)⟩

set_option maxRecDepth 1000000 in
/-- C1 counterexample: a Level-B section of 361 tokens (≥ the minimum
window) whose packing emits two chunks with token counts 301 and 60 — the
first, non-final chunk exceeds the 300-token maximum, refuting the
`[150, 300]` window of the claim as stated. -/
theorem levelC_token_window_upper_bound_cex :
    150 ≤ wordCount c1CexSub.text ∧
    (levelCC c1CexSub).map LeafC.token_count = [301, 60] ∧
    (levelCC c1CexSub).dropLast.map LeafC.token_count = [301] ∧
    ¬(301 ≤ 300) := by
  refine ⟨by decide, by decide, by decide, by norm_num⟩

end AuraLearn

/-! ## Sanity examples

Concrete evaluations of the embedding, checked against the reference
behaviour of the Python runtime (regex splitting, `hashlib.md5` test
vectors, metadata extraction). -/

section sanity
open AuraLearn
example : splitSentences "a. b" = ["a.", "b"] := rfl
example : splitSentences "a.  b" = ["a.", "b"] := rfl
example : splitSentences "a. " = ["a.", ""] := rfl
example : splitSentences "" = [""] := rfl
example : splitSentences "a. . b" = ["a.", ".", "b"] := rfl
example : wordCount "  un  deux trois " = 3 := rfl
example : pyStrip "  x y  " = "x y" := rfl
example : strLower "École CM1" = "école cm1" := rfl
example : strContains "cm1" "école cm1" = true := rfl
example : strContains "cm3" "école cm1" = false := rfl
example : levelCPack "petit texte." = [] := rfl
example : lineMatches subjectPatterns "VOLET 2 : contenu" = true := rfl
example : lineMatches subjectPatterns "bonjour tout le monde" = false := rfl
example : lineMatches chapterPatterns "Chapitre 12 — titre" = true := rfl
example : lineMatches chapterPatterns "Chapitre douze" = false := rfl
example : lineMatches sectionPatternsCurr "Objectifs / finalités" = true := rfl
example :
    lineMatches sectionPatternsGuide
      ("Objectifs d" ++ String.mk [apoC] ++ "apprentissage") = true := rfl
example : levelAC [⟨1, "bonjour"⟩, ⟨2, "le monde"⟩] "d" = [] := rfl
example :
    levelAG [⟨1, "bonjour"⟩, ⟨2, "le monde"⟩] "d" =
      [{ topic := "General", text := "bonjour\nle monde",
         pages := [⟨1, "bonjour"⟩, ⟨2, "le monde"⟩], doc_id := "d",
         line_start := 0, line_end := 2 }] := rfl
example : (levelAC [⟨1, "Volet 1 intro\nsuite"⟩, ⟨2, "Français\ntexte"⟩] "d").map
    SectionA.subject = ["Volet 1 intro", "Français"] := rfl
example : (levelAC [⟨1, "Volet 1 intro\nsuite"⟩, ⟨2, "Français\ntexte"⟩] "d").map
    (fun s => (s.line_start, s.line_end)) = [(0, 2), (2, 4)] := rfl
example : cycleFromText "voir cycle  3 ici" = "3" := rfl
example : cycleFromText "cycle un" = "3" := rfl
example : cycleFromText "le cycle 1 puis cycle 3" = "1" := rfl
example : gradeScan gradePatternsCurr "les cm1 et cm2 et 6e" = ["CM1", "CM2", "6E"] := rfl
example :
    extractMetadataC
      { subject := "Maths", text := "t", pages := [⟨1, "x"⟩], doc_id := "d",
        line_start := 0, line_end := 1, section_type := "general", topic := "Maths",
        chunk_text := "Les CM1 et CM2, Cycle 3.", token_count := 6 } =
    { cycle := "3", grades := ["CM1", "CM2"], subject := "Maths",
      section_type := "general", topic := "Maths", subtopic := "Maths",
      is_cycle_wide := false } := rfl
example :
    (extractMetadataC
      { subject := "Maths", text := "t", pages := [⟨1, "x"⟩], doc_id := "d",
        line_start := 0, line_end := 1, section_type := "general", topic := "Maths",
        chunk_text := "Rien de connu ici, cycle 2.", token_count := 6 }).grades =
    ["CE1", "CE2", "CM1", "CM2"] := rfl
example : guideTypeOf "une stratégie utile" = "strategy" := rfl
example : guideTypeOf "un test final" = "assessment" := rfl
example : guideTypeOf "rien" = "pedagogical" := rfl
example :
    (chunkDocumentC [⟨3, "Volet 1"⟩, ⟨1, "texte"⟩] "d").map
      (fun c => (c.page_start, c.page_end)) = [] := rfl
set_option maxRecDepth 100000 in
example : String.mk (md5HexChars (strBytes "")) = "d41d8cd98f00b204e9800998ecf8427e" := by
  decide
set_option maxRecDepth 100000 in
example : String.mk (md5HexChars (strBytes "abc")) = "900150983cd24fb0d6963f7d28e17f72" := by
  decide
set_option maxRecDepth 100000 in
example : md5Hex16 "d_Maths_Topo_3_Maths_Topo_0" = "c2f33dee868e4199" := by decide
set_option maxRecDepth 100000 in
example :
    String.mk (md5HexChars (strBytes "Français")) = "e0545693906575b04aa1650abd60faba" := by
  decide
example :
    topicMatchesP1 "Abc and more stuff here\nxyz\nDef: something else ok\nGhi. no" =
      ["Abc and more stuff here", "Def: something else ok"] := rfl
example :
    topicMatchesP2 "Abc and more stuff here\nxyz\nDef: something else ok\nGhi. no" =
      ["Def:"] := rfl
example : topicMatchesP2 "AAA: BBB: rest" = ["AAA:", "BBB:"] := rfl
example : topicMatchesP2 "xAB cd: yes" = ["AB cd:"] := rfl
example :
    topicFromText "Abc and more stuff here\nxyz" = some "Abc and more stuff here" := rfl
example : topicFromText "court\nxyz" = none := rfl
example : detectCategories "des diagrammes en color et un chart" =
    ["visual_learner"] := rfl
example : detectCategories "step-by-step avec extra time, et very visual" =
    ["visual_learner", "slow_processing"] := rfl
example : detectCategories "rien du tout" = ["general"] := rfl
example :
    (extractFromText "Voir cycle 2 avec les CM1 et ce1.").grades =
      some ["CE1", "CM1"] := rfl
example : (extractFromText "Voir cycle 2.").cycle = some "2" := rfl
example : (extractFromText "tous niveaux").is_cycle_wide = true := rfl
end sanity
